import Mathlib

set_option maxRecDepth 8000

/-!
Shallow embedding of the real-time presence core of `dluxio/presence`
(`src/coturn/start-coturn.sh`, which embeds two Node/Socket.IO server
variants: a read-only one around lines 556-868 and an enhanced one around
lines 1490-1816).  The two variants share the join-space, webrtc relay and
disconnect logic verbatim; they differ only in the persistence collaborator
(HTTP data API vs. a local Postgres pool) and in the chat handler's guest
branch, which is modelled separately below.

Socket.IO primitives are modelled as pure data: `socket.join`/`socket.leave`
mutate a membership list of (socketId, roomName) pairs; an emission records
its target scope (`socket.to(room)` = room minus sender, `io.to(room)` =
whole room, `socket.emit` = the socket itself) and its payload.  External
collaborators (the persistence API, Node's crypto HMAC) are parameters of
the embedded functions.
-/

/-- The in-memory `currentSession` object built in the join-space handler
(source lines 583-589 / 1517-1523). -/
structure Session where
  spaceType : String
  spaceId : String
  subspace : String
  userAccount : Option String
  roomName : String
deriving DecidableEq, Repr

/-- The destructured payload of a `join-space` event (source line 564 /
1498), with the JS destructuring defaults already applied. -/
structure JoinData where
  spaceType : String
  spaceId : String
  subspace : String
  userAccount : Option String
  position : Option String
  avatar_data : Option String
deriving DecidableEq, Repr

/-- One row of the `presence_sessions` registry keyed by socket id
(the columns written by the upsert at source lines 1530-1539, equally the
body of the POST to `/api/presence/sessions` at lines 596-611). -/
structure SessionRow where
  user_account : Option String
  space_type : String
  space_id : String
  subspace : String
  position : Option String
  avatar_data : Option String
deriving DecidableEq, Repr

/-- Registry upsert: `INSERT ... ON CONFLICT (socket_id) DO UPDATE SET ...`
(source lines 1530-1539): update the row in place when the key is present,
insert otherwise. -/
def upsertSession (sid : String) (row : SessionRow)
    (reg : List (String × SessionRow)) : List (String × SessionRow) :=
  if reg.any (fun p => p.1 == sid) then
    reg.map (fun p => if p.1 == sid then (sid, row) else p)
  else
    (sid, row) :: reg

/-- Registry delete: `cleanupSession` issues DELETE on
`/api/presence/sessions/:socketId` (source lines 849-857). -/
def deleteSession (sid : String)
    (reg : List (String × SessionRow)) : List (String × SessionRow) :=
  reg.filter (fun p => !(p.1 == sid))

/-- Number of registry rows held for a socket id. -/
def regCount (sid : String) (reg : List (String × SessionRow)) : Nat :=
  (reg.filter (fun p => p.1 == sid)).length

/-- Socket.IO `socket.join(room)`: a no-op when the socket is already a
member of the room. -/
def joinRoom (sid room : String)
    (mem : List (String × String)) : List (String × String) :=
  if mem.any (fun p => p.1 == sid && p.2 == room) then mem
  else (sid, room) :: mem

/-- Socket.IO `socket.leave(room)`: drop this socket's membership of the
one room. -/
def leaveRoom (sid room : String)
    (mem : List (String × String)) : List (String × String) :=
  mem.filter (fun p => !(p.1 == sid && p.2 == room))

/-- One entry of the occupant list returned by `getUsersInSpace` in the
read-only variant (source lines 835-847): the socket ids currently in the
Socket.IO room, each paired with a null `userAccount` placeholder. -/
structure SpaceUser where
  socketId : String
  userAccount : Option String
deriving DecidableEq, Repr

/-- Read-only variant `getUsersInSpace` (source lines 835-847):
`io.in(roomName).fetchSockets()` mapped to user stubs. -/
def getUsersInSpace (room : String)
    (mem : List (String × String)) : List SpaceUser :=
  (mem.filter (fun p => p.2 == room)).map
    (fun p => { socketId := p.1, userAccount := none })

/-- A chat message row as sent to / returned by the persistence
collaborator (source lines 685-694 and 1599-1607). -/
structure ChatRow where
  space_type : String
  space_id : String
  subspace : String
  user_account : Option String
  guest_id : Option String
  message_type : String
  content : String
  parent_message_id : Option String
deriving DecidableEq, Repr

/-- Payload of an emitted Socket.IO event; one constructor per event the
handlers emit, with exactly the fields of the source's object literal. -/
inductive Payload where
  | userLeft (socketId : String) (userAccount : Option String)
  | userJoined (socketId : String) (userAccount : Option String)
      (position : Option String) (avatar_data : Option String)
  | spaceJoined (spaceType spaceId subspace : String) (users : List SpaceUser)
  | chatMessage (message : ChatRow) (display_name : String)
  | chatError (error : String)
  | spaceError (error : String)
  | webrtcOffer (offer : String) (fromSocketId : String) (fromUser : Option String)
  | webrtcAnswer (answer : String) (fromSocketId : String) (fromUser : Option String)
  | webrtcIceCandidate (candidate : String) (fromSocketId : String)
deriving DecidableEq, Repr

/-- Emission target scope of the Socket.IO calls used by the handlers. -/
inductive Target where
  | toRoomExceptSender (room sender : String)
  | toRoomAll (room : String)
  | toSelf (sid : String)
deriving DecidableEq, Repr

/-- One emitted event. -/
structure Emit where
  target : Target
  payload : Payload
deriving DecidableEq, Repr

/-- Recipient set of an emission, computed from the membership list.
`socket.to(room)` reaches the room's members minus the sender (also used
for `socket.to(targetSocketId)`, since every connected socket is in a room
named by its own id); `io.to(room)` reaches the whole room; `socket.emit`
reaches only the socket itself. -/
def recipients (mem : List (String × String)) : Target → List String
  | Target.toRoomExceptSender room sender =>
      (mem.filter (fun p => p.2 == room && !(p.1 == sender))).map Prod.fst
  | Target.toRoomAll room =>
      (mem.filter (fun p => p.2 == room)).map Prod.fst
  | Target.toSelf s => [s]

/-- Per-connection server state visible to the handlers: the connection's
`currentSession` closure variable, the Socket.IO room membership, and the
`presence_sessions` registry. -/
structure ConnState where
  cs : Option Session
  membership : List (String × String)
  reg : List (String × SessionRow)
deriving DecidableEq, Repr

/-- Room name built at source line 582 / 1516. -/
def roomNameOf (d : JoinData) : String :=
  d.spaceType ++ ":" ++ d.spaceId ++ ":" ++ d.subspace

/-- The `currentSession` value assigned at source lines 583-589. -/
def mkSession (d : JoinData) : Session :=
  { spaceType := d.spaceType, spaceId := d.spaceId, subspace := d.subspace,
    userAccount := d.userAccount, roomName := roomNameOf d }

/-- The registry row written for a join (source lines 596-611 / 1530-1539). -/
def sessionRowOf (d : JoinData) : SessionRow :=
  { user_account := d.userAccount, space_type := d.spaceType,
    space_id := d.spaceId, subspace := d.subspace,
    position := d.position, avatar_data := d.avatar_data }

/-- The `join-space` handler (source lines 562-664, identical control flow
at 1496-1583).  `data = none` models a payload whose destructuring throws
(a null event payload): the handler's catch emits `space-error` to the
requester and nothing was mutated.  Otherwise: if a previous session
exists, leave its room, delete the registry row, and notify the old room
with `user-left`; then build the new session, join the room, upsert the
registry row, read the occupant list, notify the room with `user-joined`,
unicast `space-joined` to the caller, and join the chat room. -/
def joinSpace (sid : String) (c : ConnState) (data : Option JoinData) :
    ConnState × List Emit :=
  match data with
  | none => (c, [⟨Target.toSelf sid, Payload.spaceError "Failed to join space"⟩])
  | some d =>
    let afterLeave : ConnState × List Emit :=
      match c.cs with
      | some old =>
        ({ c with membership := leaveRoom sid old.roomName c.membership,
                  reg := deleteSession sid c.reg },
         [⟨Target.toRoomExceptSender old.roomName sid,
           Payload.userLeft sid old.userAccount⟩])
      | none => (c, [])
    let room := roomNameOf d
    let mem2 := joinRoom sid room afterLeave.1.membership
    let reg2 := upsertSession sid (sessionRowOf d) afterLeave.1.reg
    let users := getUsersInSpace room mem2
    ({ cs := some (mkSession d),
       membership := joinRoom sid ("chat:" ++ room) mem2,
       reg := reg2 },
     afterLeave.2 ++
       [⟨Target.toRoomExceptSender room sid,
         Payload.userJoined sid d.userAccount d.position d.avatar_data⟩,
        ⟨Target.toSelf sid,
         Payload.spaceJoined d.spaceType d.spaceId d.subspace users⟩])

/-- The `disconnect` handler (source lines 778-792) followed by the
transport-level removal of the socket from all of its Socket.IO rooms:
notify the occupied room with one `user-left`, then `cleanupSession`
deletes the registry row. -/
def disconnectHandler (sid : String) (c : ConnState) : ConnState × List Emit :=
  let evs : List Emit :=
    match c.cs with
    | some s => [⟨Target.toRoomExceptSender s.roomName sid,
                  Payload.userLeft sid s.userAccount⟩]
    | none => []
  ({ cs := none,
     membership := c.membership.filter (fun p => !(p.1 == sid)),
     reg := deleteSession sid c.reg },
   evs)

/-- The destructured payload of a `chat-message` event (source line 670 /
1589), JS defaults applied. -/
structure ChatData where
  content : String
  message_type : String
  parent_message_id : Option String
deriving DecidableEq, Repr

/-- The message row the chat handler forwards to the persistence
collaborator (source lines 685-694 / 1599-1607). -/
def chatRowOf (s : Session) (gid : Option String) (data : ChatData) : ChatRow :=
  { space_type := s.spaceType, space_id := s.spaceId, subspace := s.subspace,
    user_account := s.userAccount, guest_id := gid,
    message_type := data.message_type, content := data.content,
    parent_message_id := data.parent_message_id }

/-- The guest-id selection at source line 672: a logged-in session gets a
null guest id, a guest session gets the id `generateGuestId` derives from
the handshake address (`guestSeed` stands for that externally derived
value). -/
def guestIdOf (s : Session) (guestSeed : String) : Option String :=
  match s.userAccount with
  | some _ => none
  | none => some guestSeed

/-- The `chat-message` handler of the read-only variant (source lines
667-716).  `guestSeed` stands for the value `generateGuestId` derives from
the handshake address (external input: client IP, user agent, clock);
`persist` is the persistence collaborator — `none` models a failed POST
(non-ok status or thrown fetch), `some m` the persisted canonical row it
returns.  The second component of the result is the row forwarded to the
collaborator (`none` when it was never called).  Outside a session the
handler does nothing; invalid content gets `chat-error` to the sender
only; otherwise the persisted result is broadcast to the whole chat room
via `io.to`. -/
def chatMessage (sid : String) (c : ConnState) (guestSeed : String)
    (persist : ChatRow → Option ChatRow) (data : ChatData) :
    List Emit × Option ChatRow :=
  match c.cs with
  | none => ([], none)
  | some s =>
    let gid : Option String := guestIdOf s guestSeed
    if data.content = "" ∨ 2000 < data.content.length then
      ([⟨Target.toSelf sid, Payload.chatError "Invalid message content"⟩], none)
    else
      let row := chatRowOf s gid data
      match persist row with
      | none =>
        ([⟨Target.toSelf sid, Payload.chatError "Failed to send message"⟩],
         some row)
      | some m =>
        ([⟨Target.toRoomAll ("chat:" ++ s.roomName),
           Payload.chatMessage m (s.userAccount.getD ("Guest-" ++ guestSeed))⟩],
         some row)

/-- The `chat-message` handler of the enhanced variant (source lines
1586-1623).  It differs from the read-only one in its guest branch: line
1591 evaluates `generateGuestId(req)` for a session without a user
account, and `req` is not bound anywhere in the Socket.IO handler scope
(it only exists inside the HTTP route handlers), so the guest branch
throws a ReferenceError before validation or persistence; the handler's
catch emits `chat-error` to the sender. -/
def chatMessageEnhanced (sid : String) (c : ConnState)
    (persist : ChatRow → Option ChatRow) (data : ChatData) :
    List Emit × Option ChatRow :=
  match c.cs with
  | none => ([], none)
  | some s =>
    match s.userAccount with
    | none =>
      ([⟨Target.toSelf sid, Payload.chatError "Failed to send message"⟩], none)
    | some u =>
      if data.content = "" ∨ 2000 < data.content.length then
        ([⟨Target.toSelf sid, Payload.chatError "Invalid message content"⟩],
         none)
      else
        let row := chatRowOf s none data
        match persist row with
        | none =>
          ([⟨Target.toSelf sid, Payload.chatError "Failed to send message"⟩],
           some row)
        | some m =>
          ([⟨Target.toRoomAll ("chat:" ++ s.roomName),
             Payload.chatMessage m u⟩],
           some row)

/-- The `webrtc-offer` handler (source lines 719-727 / 1626-1634):
relay to `socket.to(data.targetSocketId)` tagged with the sender's socket
id and user account. -/
def webrtcOffer (sid : String) (c : ConnState) (target offer : String) :
    List Emit :=
  match c.cs with
  | none => []
  | some s =>
    [⟨Target.toRoomExceptSender target sid,
      Payload.webrtcOffer offer sid s.userAccount⟩]

/-- The `webrtc-answer` handler (source lines 729-737 / 1636-1644). -/
def webrtcAnswer (sid : String) (c : ConnState) (target answer : String) :
    List Emit :=
  match c.cs with
  | none => []
  | some s =>
    [⟨Target.toRoomExceptSender target sid,
      Payload.webrtcAnswer answer sid s.userAccount⟩]

/-- The `webrtc-ice-candidate` handler (source lines 739-746 / 1646-1653):
the relayed object literal holds only `candidate` and `fromSocketId` — no
`fromUser` field. -/
def webrtcIceCandidate (sid : String) (c : ConnState)
    (target candidate : String) : List Emit :=
  match c.cs with
  | none => []
  | some _ =>
    [⟨Target.toRoomExceptSender target sid,
      Payload.webrtcIceCandidate candidate sid⟩]

/-- The credential record returned by `generateTurnCredentials`
(source lines 810-820 / 1712-1722). -/
structure TurnCred where
  username : String
  password : String
  ttl : Nat
  uris : List String
deriving DecidableEq, Repr

/-- JS truthiness of a nullable string: null and the empty string are
falsy. -/
def jsTruthy : Option String → Bool
  | none => false
  | some s => !(s == "")

/-- The relay URI list of the returned credential (source lines 814-819). -/
def turnUris : List String :=
  ["stun:presence.dlux.io:3478",
   "turn:presence.dlux.io:3478?transport=udp",
   "turn:presence.dlux.io:3478?transport=tcp",
   "turns:presence.dlux.io:5349?transport=tcp"]

/-- `generateTurnCredentials` (source lines 799-821, identical at
1701-1723).  `envTurnSecret` is `process.env.TURN_SECRET` (`none` =
unset); the source computes `process.env.TURN_SECRET || 'default_secret'`,
so an unset or empty secret silently becomes the hardcoded literal.
`hmacSha1Base64 key msg` abstracts Node's
`crypto.createHmac('sha1', key).update(msg).digest('base64')`.
`nowMs` is `Date.now()`; the expiry is `floor(nowMs / 1000) + 3600`.
A falsy (null or empty) username yields the `temp` form, per the JS
conditional `username ? ... : ...`. -/
def generateTurnCredentials (envTurnSecret : Option String)
    (hmacSha1Base64 : String → String → String)
    (nowMs : Nat) (username : Option String) : TurnCred :=
  let secret := if jsTruthy envTurnSecret then envTurnSecret.getD ""
                else "default_secret"
  let ttl := 3600
  let timestamp := nowMs / 1000 + ttl
  let turnUsername :=
    if jsTruthy username then toString timestamp ++ ":" ++ username.getD ""
    else toString timestamp ++ ":temp"
  { username := turnUsername,
    password := hmacSha1Base64 secret turnUsername,
    ttl := ttl,
    uris := turnUris }

/-- An observable action of a single connection: a `join-space` event
(with `none` for a payload whose destructuring throws) or the transport
disconnect. -/
inductive ConnAction where
  | join (data : Option JoinData)
  | disconnect
deriving DecidableEq, Repr

/-- State transition of one action (events discarded). -/
def stepAction (sid : String) (c : ConnState) (a : ConnAction) : ConnState :=
  match a with
  | ConnAction.join d => (joinSpace sid c d).1
  | ConnAction.disconnect => (disconnectHandler sid c).1

/-- State of a freshly opened connection: no current session, no room
membership, no registry row. -/
def initConn : ConnState := { cs := none, membership := [], reg := [] }

/-- Run a sequence of actions of a single connection from the initial
state. -/
def runConn (sid : String) (tr : List ConnAction) : ConnState :=
  tr.foldl (stepAction sid) initConn

/-- Number of current rooms recorded in a `currentSession` variable. -/
def roomCount : Option Session → Nat
  | none => 0
  | some _ => 1

/-- Recognize a `user-left` emission. -/
def isUserLeftEmit (e : Emit) : Bool :=
  match e.payload with
  | Payload.userLeft _ _ => true
  | _ => false

/-- Recognize a `user-joined` emission. -/
def isUserJoinedEmit (e : Emit) : Bool :=
  match e.payload with
  | Payload.userJoined _ _ _ _ => true
  | _ => false

/-- All string components appearing anywhere in a payload (used to state
that a relayed event does not carry some identity). -/
def payloadStrings : Payload → List String
  | Payload.userLeft s ua => [s] ++ ua.toList
  | Payload.userJoined s ua p a => [s] ++ ua.toList ++ p.toList ++ a.toList
  | Payload.spaceJoined st si ss users =>
      [st, si, ss] ++
        users.foldr (fun u acc => u.socketId :: (u.userAccount.toList ++ acc)) []
  | Payload.chatMessage m dn =>
      [m.space_type, m.space_id, m.subspace, m.message_type, m.content, dn] ++
        m.user_account.toList ++ m.guest_id.toList ++ m.parent_message_id.toList
  | Payload.chatError e => [e]
  | Payload.spaceError e => [e]
  | Payload.webrtcOffer o f fu => [o, f] ++ fu.toList
  | Payload.webrtcAnswer a f fu => [a, f] ++ fu.toList
  | Payload.webrtcIceCandidate cd f => [cd, f]

/-- A concrete stand-in for the external HMAC collaborator, used only to
instantiate counterexamples and witnesses. -/
def mockHmacSha1Base64 (key msg : String) : String :=
  "hmac-sha1-b64(" ++ key ++ "," ++ msg ++ ")"

/-- The registry of a single connection is empty or a single row keyed by
that connection's socket id. -/
def regSingleton (sid : String) (reg : List (String × SessionRow)) : Prop :=
  reg = [] ∨ ∃ row, reg = [(sid, row)]

/-- Concrete join payload for room `post:a:main` by user alice. -/
def exJoinA : JoinData :=
  { spaceType := "post", spaceId := "a", subspace := "main",
    userAccount := some "alice", position := none, avatar_data := none }

/-- Concrete join payload for room `post:b:main` by user alice. -/
def exJoinB : JoinData :=
  { spaceType := "post", spaceId := "b", subspace := "main",
    userAccount := some "alice", position := none, avatar_data := none }

/-- Concrete join payload for room `post:a:main` by a guest. -/
def exJoinG : JoinData :=
  { spaceType := "post", spaceId := "a", subspace := "main",
    userAccount := none, position := none, avatar_data := none }

/-- Session of `exJoinA`. -/
def exSessionA : Session := mkSession exJoinA

/-- Session of `exJoinG`. -/
def exSessionG : Session := mkSession exJoinG

/-- State of socket `s1` after joining room `post:a:main` as alice. -/
def exStateA : ConnState := (joinSpace "s1" initConn (some exJoinA)).1

/-- State of socket `s1` after joining room `post:a:main` as a guest. -/
def exStateG : ConnState := (joinSpace "s1" initConn (some exJoinG)).1

/-- A boundary chat content of length exactly 2000. -/
def exContent2000 : String := String.mk (List.replicate 2000 'a')

/-- A chat payload carrying the boundary content. -/
def exChatData : ChatData :=
  { content := exContent2000, message_type := "text",
    parent_message_id := none }

/-!
Theorems.  Helper lemmas come first; each claim is settled by one theorem
carrying the claim id in its doc comment, with witnesses instantiating the
hypotheses at concrete inputs and counterexamples refuting claims the code
does not satisfy.
-/

/-- Upserting into a registry that is empty or a single row for the same
socket id yields exactly that single fresh row. -/
theorem upsert_of_regSingleton (sid : String) (row : SessionRow)
    (reg : List (String × SessionRow)) (h : regSingleton sid reg) :
    upsertSession sid row reg = [(sid, row)] := by
  rcases h with h | ⟨r, h⟩ <;> subst h <;> simp [upsertSession]

/-- Deleting the socket id from such a registry empties it. -/
theorem delete_of_regSingleton (sid : String)
    (reg : List (String × SessionRow)) (h : regSingleton sid reg) :
    deleteSession sid reg = [] := by
  rcases h with h | ⟨r, h⟩ <;> subst h <;> simp [deleteSession]

/-- A successful join always installs the new session as the (unique)
current session, whatever the previous state was. -/
theorem joinSpace_cs (sid : String) (c : ConnState) (d : JoinData) :
    (joinSpace sid c (some d)).1.cs = some (mkSession d) := by
  cases h : c.cs <;> simp [joinSpace, h]

/-- A successful join leaves the registry holding exactly the one fresh
row for the connection. -/
theorem joinSpace_reg_of_regSingleton (sid : String) (c : ConnState)
    (d : JoinData) (h : regSingleton sid c.reg) :
    (joinSpace sid c (some d)).1.reg = [(sid, sessionRowOf d)] := by
  cases hcs : c.cs <;> simp [joinSpace, hcs]
  · exact upsert_of_regSingleton _ _ _ h
  · exact upsert_of_regSingleton _ _ _
      (Or.inl (delete_of_regSingleton _ _ h))

/-- Every single action preserves the singleton shape of the registry. -/
theorem stepAction_regSingleton (sid : String) (c : ConnState)
    (a : ConnAction) (h : regSingleton sid c.reg) :
    regSingleton sid (stepAction sid c a).reg := by
  cases a with
  | join d =>
    cases d with
    | none => simpa [stepAction, joinSpace] using h
    | some d =>
      rw [stepAction, joinSpace_reg_of_regSingleton sid c d h]
      exact Or.inr ⟨_, rfl⟩
  | disconnect =>
    simp only [stepAction, disconnectHandler]
    exact Or.inl (delete_of_regSingleton _ _ h)

/-- Along any action sequence the registry stays empty or a singleton for
the connection. -/
theorem runConn_regSingleton (sid : String) (tr : List ConnAction) :
    regSingleton sid (runConn sid tr).reg := by
  have key : ∀ (l : List ConnAction) (c : ConnState), regSingleton sid c.reg →
      regSingleton sid (l.foldl (stepAction sid) c).reg := by
    intro l
    induction l with
    | nil => intro c h; exact h
    | cons a l ih => intro c h; exact ih _ (stepAction_regSingleton sid c a h)
  exact key tr initConn (Or.inl rfl)

/-- Claim C1: for every sequence of join-space and disconnect events
processed for a single connection, the session state holds at most one
current room at every observation point — the `currentSession` variable
holds at most one room and the registry at most one row for the socket id
— and exactly one (never zero, never two) after each successful
join-space. -/
theorem claim1_single_current_room (sid : String) (tr : List ConnAction) :
    roomCount (runConn sid tr).cs ≤ 1
    ∧ regCount sid (runConn sid tr).reg ≤ 1
    ∧ ∀ d : JoinData,
        (runConn sid (tr ++ [ConnAction.join (some d)])).cs = some (mkSession d)
        ∧ regCount sid (runConn sid (tr ++ [ConnAction.join (some d)])).reg = 1 := by
  have hstep : ∀ a, runConn sid (tr ++ [a]) = stepAction sid (runConn sid tr) a := by
    intro a; simp [runConn, List.foldl_append]
  refine ⟨?_, ?_, ?_⟩
  · cases (runConn sid tr).cs <;> simp [roomCount]
  · rcases runConn_regSingleton sid tr with h | ⟨r, h⟩ <;> rw [h] <;> simp [regCount]
  · intro d
    rw [hstep]
    constructor
    · exact joinSpace_cs sid _ d
    · rw [stepAction,
        joinSpace_reg_of_regSingleton sid _ d (runConn_regSingleton sid tr)]
      simp [regCount]

/-- Claim C2: a connection currently in room A that sends join-space for a
different room B makes the server emit exactly one `user-left` to A's
remaining members and exactly one `user-joined` to B's other members, the
`user-left` strictly first, and unicast B's occupant list back to the
joining connection (the `space-joined` emission to the caller). -/
theorem claim2_move_rooms (sid : String) (c : ConnState) (old : Session)
    (d : JoinData) (hcs : c.cs = some old)
    (hne : roomNameOf d ≠ old.roomName) :
    (joinSpace sid c (some d)).2 =
      [⟨Target.toRoomExceptSender old.roomName sid,
        Payload.userLeft sid old.userAccount⟩,
       ⟨Target.toRoomExceptSender (roomNameOf d) sid,
        Payload.userJoined sid d.userAccount d.position d.avatar_data⟩,
       ⟨Target.toSelf sid,
        Payload.spaceJoined d.spaceType d.spaceId d.subspace
          (getUsersInSpace (roomNameOf d)
            (joinRoom sid (roomNameOf d)
              (leaveRoom sid old.roomName c.membership)))⟩]
    ∧ (joinSpace sid c (some d)).2.countP isUserLeftEmit = 1
    ∧ (joinSpace sid c (some d)).2.countP isUserJoinedEmit = 1 := by
  have h : (joinSpace sid c (some d)).2 =
      [⟨Target.toRoomExceptSender old.roomName sid,
        Payload.userLeft sid old.userAccount⟩,
       ⟨Target.toRoomExceptSender (roomNameOf d) sid,
        Payload.userJoined sid d.userAccount d.position d.avatar_data⟩,
       ⟨Target.toSelf sid,
        Payload.spaceJoined d.spaceType d.spaceId d.subspace
          (getUsersInSpace (roomNameOf d)
            (joinRoom sid (roomNameOf d)
              (leaveRoom sid old.roomName c.membership)))⟩] := by
    simp [joinSpace, hcs]
  refine ⟨h, ?_, ?_⟩ <;> rw [h] <;>
    simp [List.countP_cons, isUserLeftEmit, isUserJoinedEmit]

/-- Witness for C2: alice moves socket s1 from `post:a:main` to
`post:b:main`. -/
theorem claim2_witness :
    exStateA.cs = some exSessionA
    ∧ roomNameOf exJoinB ≠ exSessionA.roomName
    ∧ (joinSpace "s1" exStateA (some exJoinB)).2.countP isUserLeftEmit = 1 := by
  exact ⟨rfl, by decide,
    (claim2_move_rooms "s1" exStateA exSessionA exJoinB rfl (by decide)).2.1⟩

/-- Counterexample to C3 as stated: the claim quantifies over every
identity string, but for the empty identity string the code's JS
truthiness check produces the `temp` username form, not an empty identity
segment (`3600:temp` instead of `3600:` at expiry second 3600). -/
theorem claim3_counterexample :
    (generateTurnCredentials (some "S") mockHmacSha1Base64 0 (some "")).username
      = "3600:temp"
    ∧ "3600:temp" ≠ "3600:" := by
  exact ⟨by decide, by decide⟩

/-- Claim C3 (amended): with a nonempty configured secret, credential
issuance returns username `expiry:identity` for a nonempty identity and
`expiry:temp` when the identity is null or empty, with expiry equal to
`floor(nowMs/1000) + 3600`; the password is the base64 HMAC-SHA1 of the
username under the secret; the ttl is 3600; the uris are the fixed relay
list; and the result is a deterministic pure function of identity, secret
and the expiry second. -/
theorem claim3_amended_credentials (secret : String)
    (hmac : String → String → String) (nowMs : Nat)
    (identity : Option String) (hsec : secret ≠ "") :
    ((identity = none ∨ identity = some "") →
      (generateTurnCredentials (some secret) hmac nowMs identity).username =
        toString (nowMs / 1000 + 3600) ++ ":temp")
    ∧ (∀ u, identity = some u → u ≠ "" →
      (generateTurnCredentials (some secret) hmac nowMs identity).username =
        toString (nowMs / 1000 + 3600) ++ ":" ++ u)
    ∧ (generateTurnCredentials (some secret) hmac nowMs identity).password =
        hmac secret
          (generateTurnCredentials (some secret) hmac nowMs identity).username
    ∧ (generateTurnCredentials (some secret) hmac nowMs identity).ttl = 3600
    ∧ (generateTurnCredentials (some secret) hmac nowMs identity).uris = turnUris
    ∧ (∀ n2 : Nat, n2 / 1000 = nowMs / 1000 →
        generateTurnCredentials (some secret) hmac n2 identity =
          generateTurnCredentials (some secret) hmac nowMs identity) := by
  have hb : (secret == "") = false := by simp [hsec]
  refine ⟨?_, ?_, ?_, ?_, ?_, ?_⟩
  · rintro (rfl | rfl) <;> rfl
  · rintro u rfl hu
    have hub : (u == "") = false := by simp [hu]
    simp [generateTurnCredentials, jsTruthy, hub]
  · simp [generateTurnCredentials, jsTruthy, hb]
  · rfl
  · rfl
  · intro n2 h2
    simp [generateTurnCredentials, h2]

/-- Witness for the amended C3: secret S, identity alice, clock 0. -/
theorem claim3_amended_witness :
    ("S" : String) ≠ ""
    ∧ (generateTurnCredentials (some "S") mockHmacSha1Base64 0 (some "alice")).username
        = "3600:alice"
    ∧ (generateTurnCredentials (some "S") mockHmacSha1Base64 0 (some "alice")).password
        = "hmac-sha1-b64(S,3600:alice)"
    ∧ (generateTurnCredentials (some "S") mockHmacSha1Base64 0 (some "alice")).ttl
        = 3600 := by
  obtain ⟨h1, h2, h3, h4, h5, h6⟩ :=
    claim3_amended_credentials "S" mockHmacSha1Base64 0 (some "alice") (by decide)
  have hu := h2 "alice" rfl (by decide)
  refine ⟨by decide, ?_, ?_, h4⟩
  · rw [hu]; decide
  · rw [h3, hu]; decide

/-- Counterexample to C4 as stated: with the secret env variable unset
(and equally when it is empty) the call does not fail — it silently falls
back to the hardcoded literal `default_secret` and returns a full
credential derived from it. -/
theorem claim4_counterexample :
    (generateTurnCredentials none mockHmacSha1Base64 0 none).password
        = "hmac-sha1-b64(default_secret,3600:temp)"
    ∧ (generateTurnCredentials (some "") mockHmacSha1Base64 0 none).password
        = "hmac-sha1-b64(default_secret,3600:temp)"
    ∧ (generateTurnCredentials none mockHmacSha1Base64 0 none).ttl = 3600
    ∧ (generateTurnCredentials none mockHmacSha1Base64 0 none).uris = turnUris := by
  exact ⟨by decide, by decide, by decide, rfl⟩

/-- Claim C4 (amended): when the shared secret is unset or empty at call
time, credential issuance does not reject the request: it behaves exactly
as if the secret were the hardcoded literal `default_secret`, and the
returned password is the MAC keyed by that default. -/
theorem claim4_amended_fallback (hmac : String → String → String)
    (nowMs : Nat) (u : Option String) (env : Option String)
    (henv : jsTruthy env = false) :
    generateTurnCredentials env hmac nowMs u =
      generateTurnCredentials (some "default_secret") hmac nowMs u
    ∧ (generateTurnCredentials env hmac nowMs u).password =
        hmac "default_secret"
          ((generateTurnCredentials env hmac nowMs u).username) := by
  cases env with
  | none => exact ⟨rfl, rfl⟩
  | some s =>
    have hs : s = "" := by
      have h := henv
      simp [jsTruthy] at h
      exact h
    subst hs
    exact ⟨rfl, rfl⟩

/-- Witness for the amended C4: the empty secret. -/
theorem claim4_amended_witness :
    jsTruthy (some "") = false
    ∧ (generateTurnCredentials (some "") mockHmacSha1Base64 0 none).password =
        mockHmacSha1Base64 "default_secret"
          ((generateTurnCredentials (some "") mockHmacSha1Base64 0 none).username) := by
  exact ⟨rfl, (claim4_amended_fallback mockHmacSha1Base64 0 none (some "") rfl).2⟩

/-- A socket that is a member of a room is among the recipients of an
`io.to(room)` broadcast. -/
theorem mem_recipients_toRoomAll (mem : List (String × String))
    (sid room : String) (h : (sid, room) ∈ mem) :
    sid ∈ recipients mem (Target.toRoomAll room) := by
  simp only [recipients, List.mem_map, List.mem_filter]
  exact ⟨(sid, room), ⟨h, by simp⟩, rfl⟩

/-- Claim C5: a chat-message from an in-room connection is rejected with a
`chat-error` to the sender only (no room broadcast, no persistence call)
when the content is empty or longer than 2000; when the content is
nonempty and at most 2000 long it is forwarded to the persistence
collaborator and the persisted result is broadcast to the whole chat room,
a scope that includes the sender. -/
theorem claim5_chat_validation (sid : String) (c : ConnState) (s : Session)
    (guestSeed : String) (persist : ChatRow → Option ChatRow)
    (data : ChatData) (hcs : c.cs = some s) :
    ((data.content = "" ∨ 2000 < data.content.length) →
      chatMessage sid c guestSeed persist data =
        ([⟨Target.toSelf sid, Payload.chatError "Invalid message content"⟩],
         none))
    ∧ (data.content ≠ "" → data.content.length ≤ 2000 →
      ∀ m, persist (chatRowOf s (guestIdOf s guestSeed) data) = some m →
        chatMessage sid c guestSeed persist data =
          ([⟨Target.toRoomAll ("chat:" ++ s.roomName),
             Payload.chatMessage m
               (s.userAccount.getD ("Guest-" ++ guestSeed))⟩],
           some (chatRowOf s (guestIdOf s guestSeed) data))
        ∧ ((sid, "chat:" ++ s.roomName) ∈ c.membership →
            sid ∈ recipients c.membership
              (Target.toRoomAll ("chat:" ++ s.roomName)))) := by
  constructor
  · intro hbad
    simp [chatMessage, hcs, hbad]
  · intro hne hlen m hm
    have hcond : ¬(data.content = "" ∨ 2000 < data.content.length) := by
      push_neg
      exact ⟨hne, by omega⟩
    refine ⟨?_, fun hmem => mem_recipients_toRoomAll _ _ _ hmem⟩
    simp [chatMessage, hcs, hcond, hm]

/-- Witness for C5: a boundary content of length exactly 2000 is accepted
and broadcast to the whole chat room. -/
theorem claim5_witness :
    exStateA.cs = some exSessionA
    ∧ exContent2000 ≠ ""
    ∧ exContent2000.length = 2000
    ∧ chatMessage "s1" exStateA "g1" some exChatData =
        ([⟨Target.toRoomAll "chat:post:a:main",
           Payload.chatMessage (chatRowOf exSessionA none exChatData) "alice"⟩],
         some (chatRowOf exSessionA none exChatData)) := by
  have hne : exContent2000 ≠ "" := by decide
  have hlen : exContent2000.length = 2000 := by
    show (List.replicate 2000 'a').length = 2000
    simp
  have h := (claim5_chat_validation "s1" exStateA exSessionA "g1" some
      exChatData rfl).2 hne (le_of_eq hlen)
      (chatRowOf exSessionA (guestIdOf exSessionA "g1") exChatData) rfl
  exact ⟨rfl, hne, hlen, h.1⟩

/-- Counterexample to C6 as stated: re-joining the same room is NOT
treated as a broadcast-free refresh — the code performs the full
leave-and-rejoin, emitting one `user-left` and one `user-joined` to the
room. -/
theorem claim6_counterexample :
    exStateA.cs = some exSessionA
    ∧ roomNameOf exJoinA = exSessionA.roomName
    ∧ (joinSpace "s1" exStateA (some exJoinA)).2.countP isUserLeftEmit = 1
    ∧ (joinSpace "s1" exStateA (some exJoinA)).2.countP isUserJoinedEmit = 1 := by
  exact ⟨rfl, rfl, by decide, by decide⟩

/-- Claim C6 (amended): a join-space for the room the connection is
already in performs the full leave-and-rejoin sequence — one `user-left`
and one `user-joined` broadcast to the room's other members plus the
occupant snapshot to the caller — while updating the carried state: the
new session replaces the old one and the registry row is rewritten with
the fresh position and avatar data. -/
theorem claim6_amended_rejoin (sid : String) (c : ConnState) (old : Session)
    (d : JoinData) (hcs : c.cs = some old)
    (heq : roomNameOf d = old.roomName) :
    (joinSpace sid c (some d)).2 =
      [⟨Target.toRoomExceptSender old.roomName sid,
        Payload.userLeft sid old.userAccount⟩,
       ⟨Target.toRoomExceptSender (roomNameOf d) sid,
        Payload.userJoined sid d.userAccount d.position d.avatar_data⟩,
       ⟨Target.toSelf sid,
        Payload.spaceJoined d.spaceType d.spaceId d.subspace
          (getUsersInSpace (roomNameOf d)
            (joinRoom sid (roomNameOf d)
              (leaveRoom sid old.roomName c.membership)))⟩]
    ∧ (joinSpace sid c (some d)).1.cs = some (mkSession d)
    ∧ (joinSpace sid c (some d)).1.reg =
        upsertSession sid (sessionRowOf d) (deleteSession sid c.reg) := by
  refine ⟨?_, ?_, ?_⟩ <;> simp [joinSpace, hcs]

/-- Witness for the amended C6: alice re-joins `post:a:main`. -/
theorem claim6_amended_witness :
    exStateA.cs = some exSessionA
    ∧ roomNameOf exJoinA = exSessionA.roomName
    ∧ (joinSpace "s1" exStateA (some exJoinA)).1.cs = some (mkSession exJoinA) := by
  exact ⟨rfl, rfl,
    (claim6_amended_rejoin "s1" exStateA exSessionA exJoinA rfl rfl).2.1⟩

/-- Claim C7: a join-space request whose processing fails (the only
reachable failure is the payload destructuring throwing, which happens
before any mutation; the code performs no upstream authorization check)
makes the server emit a single `space-error` to the requester only, and
leaves the connection's prior state — current session, room membership
and registry — exactly as before. -/
theorem claim7_failed_join (sid : String) (c : ConnState) :
    joinSpace sid c none =
      (c, [⟨Target.toSelf sid, Payload.spaceError "Failed to join space"⟩])
    ∧ recipients c.membership (Target.toSelf sid) = [sid] :=
  ⟨rfl, rfl⟩

/-- Counterexample to C8 as stated: the relayed `webrtc-ice-candidate`
event is not tagged with the sender's identity — the delivered payload
contains only the candidate and the sender's socket id; alice's identity
appears nowhere in it. -/
theorem claim8_counterexample :
    exStateA.cs = some exSessionA
    ∧ exSessionA.userAccount = some "alice"
    ∧ webrtcIceCandidate "s1" exStateA "s2" "cand1" =
        [⟨Target.toRoomExceptSender "s2" "s1",
          Payload.webrtcIceCandidate "cand1" "s1"⟩]
    ∧ "alice" ∉ payloadStrings (Payload.webrtcIceCandidate "cand1" "s1") := by
  exact ⟨rfl, rfl, rfl, by decide⟩

/-- Claim C8 (amended): each relay-signaling event from an in-room
connection produces exactly one point-to-point emission to the target
socket's private room and nothing else — no error to the sender and no
room broadcast; if the target is not connected (no membership entry for
its room) the recipient set is empty, a silent drop, and if the target is
connected the event reaches exactly the target.  The offer and answer are
tagged with the sender's socket id and identity; the ice candidate only
with the sender's socket id. -/
theorem claim8_amended_relay (sid target : String) (c : ConnState)
    (s : Session) (o a cd : String) (hcs : c.cs = some s) :
    webrtcOffer sid c target o =
      [⟨Target.toRoomExceptSender target sid,
        Payload.webrtcOffer o sid s.userAccount⟩]
    ∧ webrtcAnswer sid c target a =
      [⟨Target.toRoomExceptSender target sid,
        Payload.webrtcAnswer a sid s.userAccount⟩]
    ∧ webrtcIceCandidate sid c target cd =
      [⟨Target.toRoomExceptSender target sid,
        Payload.webrtcIceCandidate cd sid⟩]
    ∧ (∀ mem : List (String × String), (∀ p ∈ mem, p.2 ≠ target) →
        recipients mem (Target.toRoomExceptSender target sid) = [])
    ∧ (∀ mem : List (String × String),
        mem.filter (fun p => p.2 == target) = [(target, target)] →
        target ≠ sid →
        recipients mem (Target.toRoomExceptSender target sid) = [target]) := by
  refine ⟨by simp [webrtcOffer, hcs], by simp [webrtcAnswer, hcs],
    by simp [webrtcIceCandidate, hcs], ?_, ?_⟩
  · intro mem hmem
    simp only [recipients, List.map_eq_nil_iff, List.filter_eq_nil_iff]
    intro p hp
    simp [hmem p hp]
  · intro mem hmem htgt
    have hsplit : mem.filter (fun p => p.2 == target && !(p.1 == sid)) =
        (mem.filter (fun p => p.2 == target)).filter (fun p => !(p.1 == sid)) := by
      rw [List.filter_filter]
      congr 1
      funext p
      exact Bool.and_comm _ _
    simp only [recipients, hsplit, hmem]
    simp [htgt]

/-- Witness for the amended C8: a relay from s1, one dropped emission (no
socket is in room s2) and one delivered emission (s2 is connected). -/
theorem claim8_amended_witness :
    exStateA.cs = some exSessionA
    ∧ webrtcOffer "s1" exStateA "s2" "offer1" =
        [⟨Target.toRoomExceptSender "s2" "s1",
          Payload.webrtcOffer "offer1" "s1" (some "alice")⟩]
    ∧ recipients [("s1", "s1"), ("s1", "post:a:main")]
        (Target.toRoomExceptSender "s2" "s1") = []
    ∧ recipients [("s1", "s1"), ("s2", "s2")]
        (Target.toRoomExceptSender "s2" "s1") = ["s2"] := by
  obtain ⟨h1, h2, h3, h4, h5⟩ :=
    claim8_amended_relay "s1" "s2" exStateA exSessionA "offer1" "ans1" "cand1" rfl
  exact ⟨rfl, h1, h4 _ (by decide), h5 _ (by decide) (by decide)⟩

/-- Deleting a socket id leaves no registry row for it. -/
theorem regCount_delete (sid : String) (reg : List (String × SessionRow)) :
    regCount sid (deleteSession sid reg) = 0 := by
  induction reg with
  | nil => rfl
  | cons p l ih =>
    by_cases h : p.1 == sid
    · simp only [deleteSession, regCount, List.filter_cons, h] at ih ⊢
      simp [h, ih]
    · simp only [deleteSession, regCount, List.filter_cons, h] at ih ⊢
      simp [h, ih]

/-- Claim C9: when a connection in room R disconnects, the server emits
exactly one `user-left` to R's remaining members (the room scope minus
the sender), deletes the connection's registry row, and the connection no
longer appears in any room's occupant listing. -/
theorem claim9_disconnect (sid : String) (c : ConnState) (s : Session)
    (hcs : c.cs = some s) :
    (disconnectHandler sid c).2 =
      [⟨Target.toRoomExceptSender s.roomName sid,
        Payload.userLeft sid s.userAccount⟩]
    ∧ regCount sid (disconnectHandler sid c).1.reg = 0
    ∧ ∀ room : String,
        ∀ u ∈ getUsersInSpace room (disconnectHandler sid c).1.membership,
          u.socketId ≠ sid := by
  refine ⟨by simp [disconnectHandler, hcs], regCount_delete sid c.reg, ?_⟩
  intro room u hu
  simp [disconnectHandler, getUsersInSpace, List.mem_filter] at hu
  obtain ⟨p, hp, rfl⟩ := hu
  obtain ⟨x, _, _, hpne⟩ := hp
  exact hpne

/-- Witness for C9: alice's socket s1 disconnects from `post:a:main`. -/
theorem claim9_witness :
    exStateA.cs = some exSessionA
    ∧ (disconnectHandler "s1" exStateA).2 =
        [⟨Target.toRoomExceptSender "post:a:main" "s1",
          Payload.userLeft "s1" (some "alice")⟩] := by
  refine ⟨rfl, ?_⟩
  have h := (claim9_disconnect "s1" exStateA exSessionA rfl).1
  exact h

/-- Claim C10: in the enhanced variant, every chat-message from a guest
session (null identity) yields a `chat-error` to the sender and nothing
else — no broadcast and no persistence call — regardless of the content,
because the guest-id expression at source line 1591 references the
undefined variable `req` and throws before the message is processed. -/
theorem claim10_guest_chat_enhanced (sid : String) (c : ConnState)
    (s : Session) (persist : ChatRow → Option ChatRow) (data : ChatData)
    (hcs : c.cs = some s) (hguest : s.userAccount = none) :
    chatMessageEnhanced sid c persist data =
      ([⟨Target.toSelf sid, Payload.chatError "Failed to send message"⟩],
       none) := by
  simp [chatMessageEnhanced, hcs, hguest]

/-- Witness for C10: a guest in `post:a:main` sends a perfectly valid
message and still gets the error. -/
theorem claim10_witness :
    exStateG.cs = some exSessionG
    ∧ exSessionG.userAccount = none
    ∧ "hi" ≠ "" ∧ ("hi" : String).length ≤ 2000
    ∧ chatMessageEnhanced "s1" exStateG some
        { content := "hi", message_type := "text", parent_message_id := none } =
        ([⟨Target.toSelf "s1", Payload.chatError "Failed to send message"⟩],
         none) := by
  exact ⟨rfl, rfl, by decide, by decide,
    claim10_guest_chat_enhanced "s1" exStateG exSessionG some _ rfl rfl⟩
